import Mathlib

/-!
Verification of the scenario simulation engine of the
banking-agent-simulation-platform repository
(src/backend/app/logic.py, "Scenario engine" section).

The engine is embedded shallowly over exact rationals: every Python float
computation is translated to the same computation on the rationals, and the
baseline snapshot (which logic.py derives from a CSV the engine merely reads)
is an explicit parameter, as the specification describes it (a Population
Snapshot / Baseline Record consumed by the core).
-/

namespace BankingSim

/-- Embeds `_clamp` (logic.py lines 226-227): `max(lo, min(hi, x))`. -/
def clamp (x lo hi : ℚ) : ℚ := max lo (min hi x)

/-- Embeds the Python builtin `round` on exact values: round half to even
(bankers rounding), which is what `round(float)` implements. -/
def pyRound (x : ℚ) : ℤ :=
  if x - ⌊x⌋ < 1/2 then ⌊x⌋
  else if 1/2 < x - ⌊x⌋ then ⌊x⌋ + 1
  else if ⌊x⌋ % 2 = 0 then ⌊x⌋ else ⌊x⌋ + 1

/-- One row of the `COEFF` table (logic.py lines 205-216): the five signed
effects of a scenario.  `region_bias` is absent for most scenarios and the
code reads it with `c.get("region_bias", 0.0)` (line 299), so the embedding
stores the defaulted value directly. -/
structure Coeff where
  clients : ℚ
  sat : ℚ
  churn : ℚ
  digital : ℚ
  region_bias : ℚ
deriving DecidableEq, Repr

/-- Embeds the `COEFF` dict (logic.py lines 205-216).  A lookup of a name
that is not a key raises `KeyError` in Python; the embedding returns
`none` there. -/
def COEFF (scenario : String) : Option Coeff :=
  if scenario = "Fermeture d\x27Agence" then
    some ⟨-(4/100), -(2/100), 3/100, 1/100, 1/2⟩
  else if scenario = "Currency Devaluation" then
    some ⟨-(2/100), -(3/100), 5/100, 0, 0⟩
  else if scenario = "Energy Crisis" then
    some ⟨-(5/100), -(4/100), 6/100, -(1/100), 0⟩
  else if scenario = "Political Uncertainty" then
    some ⟨-(1/100), -(1/100), 2/100, 0, 0⟩
  else if scenario = "Digital Transformation" then
    some ⟨1/100, 1/100, -(2/100), 5/100, 0⟩
  else if scenario = "Tourism Recovery" then
    some ⟨15/1000, 1/100, -(1/100), 1/100, 0⟩
  else if scenario = "Export Boom" then
    some ⟨2/100, 15/1000, -(1/100), 0, 0⟩
  else if scenario = "Economic Recovery" then
    some ⟨1/100, 1/100, -(1/100), 0, 0⟩
  else if scenario = "Regional Instability" then
    some ⟨-(3/100), -(2/100), 3/100, -(5/1000), 0⟩
  else if scenario = "Baseline" then
    some ⟨0, 0, 0, 0, 0⟩
  else none

/-- Embeds the `INT_MULT` dict (logic.py line 217); unknown intensities
raise `KeyError` in Python, hence `none`. -/
def INT_MULT (intensity : String) : Option ℚ :=
  if intensity = "Faible" then some (6/10)
  else if intensity = "Moyenne" then some 1
  else if intensity = "Forte" then some (3/2)
  else none

/-- Embeds `CHURN_SEVERITY = 2.0` (logic.py line 249). -/
def CHURN_SEVERITY : ℚ := 2

/-- Embeds the `SEG_CHURN_ELASTICITY` dict (logic.py line 250), read with
`.get(s_name, 1.0)` at line 326, so unknown names default to 1. -/
def SEG_CHURN_ELASTICITY (s_name : String) : ℚ :=
  if s_name = "Premium" then 7/10
  else if s_name = "SME" then 1
  else if s_name = "Mass Market" then 13/10
  else 1

/-- Embeds `REGIONAL_CHURN_MULT = 1.5` (logic.py line 251). -/
def REGIONAL_CHURN_MULT : ℚ := 3/2

/-- Embeds `DIGITAL_SHIELD = 0.60` (logic.py line 252). -/
def DIGITAL_SHIELD : ℚ := 6/10

/-- Embeds the `rev_per` dict (logic.py lines 320 and 344).  The code only
ever indexes it with the three fixed segment names produced by
`_baseline`. -/
def rev_per (s_name : String) : ℚ :=
  if s_name = "Premium" then 26000
  else if s_name = "SME" then 7000
  else if s_name = "Mass Market" then 6700
  else 0

/-- The Baseline Record produced by `_baseline` (logic.py lines 229-246):
total client count, mean satisfaction, the fixed reference churn (0.25 in
the code), mean digital adoption, the per-region counts in the fixed region
order, and the three per-segment counts.  The snapshot data itself comes
from a CSV outside the engine, so the record is a parameter of the
embedding. -/
structure Baseline where
  total_clients : ℤ
  satisfaction : ℚ
  churn : ℚ
  digital : ℚ
  regions : List (String × ℤ)
  segPremium : ℤ
  segSME : ℤ
  segMass : ℤ
deriving DecidableEq, Repr

/-- The population behavioral means returned by `_population_means`
(logic.py lines 254-258). -/
structure Pop where
  avg_cash : ℚ
  avg_dig : ℚ
deriving DecidableEq, Repr

/-- The ordered segment list the code iterates over: `_baseline` builds the
`segments` dict with keys Premium, SME, Mass Market in that insertion order
(logic.py line 245), and `simulate` / `compare` iterate it with
`.items()`. -/
def segmentsList (base : Baseline) : List (String × ℤ) :=
  [("Premium", base.segPremium), ("SME", base.segSME), ("Mass Market", base.segMass)]

/-- The `kpis` dict of a simulation result (logic.py lines 289-295). -/
structure Kpis where
  clients : ℤ
  diff_clients : ℤ
  satisfaction : ℚ
  churn_rate : ℚ
  digital_adoption : ℚ
deriving DecidableEq, Repr

/-- One entry of the `regional` list (logic.py line 316). -/
structure RegionalRec where
  region : String
  current_clients : ℤ
  delta_clients : ℤ
  risk : String
deriving DecidableEq, Repr

/-- One entry of the `segments` list (logic.py lines 331-337).  The dict
built there has exactly the four keys below; the per-segment churn value is
computed at lines 324/329 but the output field is commented out at line
336. -/
structure SegmentRec where
  name : String
  current_clients : ℤ
  delta_clients : ℤ
  revenue_impact_tnd : ℚ
deriving DecidableEq, Repr

/-- Field names of the segment record dict built at logic.py lines 331-337,
as they appear in the returned payload. -/
def segmentRecordFields : List String :=
  ["name", "current_clients", "delta_clients", "revenue_impact_tnd"]

/-- The full return value of `simulate` (logic.py line 339). -/
structure SimResult where
  kpis : Kpis
  regional : List RegionalRec
  segments : List SegmentRec
deriving DecidableEq, Repr

/-- The severe-churn computation inside `simulate` (logic.py lines
273-287): scaled impulse, behavioral coupling, digital shield on strictly
positive impulses, then clamping into [0,1]. -/
def severeChurn (base_churn c_churn m : ℚ) (months : ℤ) (pop : Pop) : ℚ :=
  let impulse := c_churn * m * ((months : ℚ) / 6) * CHURN_SEVERITY
  let behavior := 1 + (6/10) * (pop.avg_cash - 1/2) - (6/10) * (pop.avg_dig - 1/2)
  let impulse2 := if DIGITAL_SHIELD ≤ pop.avg_dig ∧ 0 < impulse then impulse * (7/10) else impulse
  clamp (base_churn + impulse2 * behavior) 0 1

/-- The common linear scaling `effect * intensityMultiplier * (months/6)`
used at logic.py lines 266-268. -/
def deltaRatio (eff m : ℚ) (months : ℤ) : ℚ := eff * m * ((months : ℚ) / 6)

/-- The risk classification of a region (logic.py lines 309-314). -/
def riskLabel (d : ℤ) (local_churn : ℚ) : String :=
  if d < 0 ∨ 35/100 < local_churn then "High"
  else if local_churn < 18/100 ∧ 0 ≤ d then "Low"
  else "Medium"

/-- The local churn of a region (logic.py lines 304-308): the population
churn times the regional multiplier (1.5 when the scenario is the branch
closure or regional instability and the region is the targeted one),
clamped to [0,1]. -/
def localChurnOf (scenario region : String) (severe : ℚ) (r_name : String) : ℚ :=
  clamp (severe * (if (scenario = "Fermeture d\x27Agence" ∨ scenario = "Regional Instability") ∧ r_name = region then REGIONAL_CHURN_MULT else 1)) 0 1

/-- The weight applied to a region (logic.py line 301): `1 + region_bias`
exactly when the scenario is the branch closure and the region is the
targeted one, else 1. -/
def regionWeight (scenario region : String) (bias : ℚ) (r_name : String) : ℚ :=
  1 + (if scenario = "Fermeture d\x27Agence" ∧ r_name = region then bias else 0)

/-- The client delta of a region (logic.py line 302):
`round(cur * clients_delta_ratio * weight)`. -/
def regionDelta (scenario region : String) (ratio bias : ℚ) (rc : String × ℤ) : ℤ :=
  pyRound ((rc.2 : ℚ) * ratio * regionWeight scenario region bias rc.1)

/-- One iteration of the regional loop of `simulate` (logic.py lines
300-316). -/
def regionalRec (scenario region : String) (ratio bias severe : ℚ) (rc : String × ℤ) : RegionalRec :=
  { region := rc.1, current_clients := rc.2,
    delta_clients := regionDelta scenario region ratio bias rc,
    risk := riskLabel (regionDelta scenario region ratio bias rc)
      (localChurnOf scenario region severe rc.1) }

/-- The per-segment churn value assigned at logic.py lines 324/329.  It is
computed by the segment loop but the output field carrying it is commented
out (line 336), so it never reaches the returned record. -/
def segChurnValue (segment s_name : String) (severe : ℚ) : ℚ :=
  if segment ≠ "Tous les segments" ∧ s_name ≠ segment then severe
  else clamp (severe * SEG_CHURN_ELASTICITY s_name) 0 1

/-- The client delta of a segment (logic.py lines 322-328): zero for a
non-matching segment when one specific segment is targeted, else
`round(cur * clients_delta_ratio * seg_multiplier)` with the 1.15 Premium
contraction multiplier. -/
def segDelta (segment : String) (ratio : ℚ) (sc : String × ℤ) : ℤ :=
  if segment ≠ "Tous les segments" ∧ sc.1 ≠ segment then 0
  else pyRound ((sc.2 : ℚ) * ratio * (if sc.1 = "Premium" ∧ ratio < 0 then 23/20 else 1))

/-- One iteration of the segment loop of `simulate` (logic.py lines
321-337). -/
def segmentRec (segment : String) (ratio : ℚ) (sc : String × ℤ) : SegmentRec :=
  { name := sc.1, current_clients := sc.2, delta_clients := segDelta segment ratio sc,
    revenue_impact_tnd := (segDelta segment ratio sc : ℚ) * rev_per sc.1 }

/-- The body of `simulate` after the two table lookups succeed (logic.py
lines 264-339). -/
def simCore (base : Baseline) (pop : Pop) (c : Coeff) (m : ℚ)
    (scenario segment region : String) (duration_months : ℤ) : SimResult :=
  { kpis :=
      { clients := base.total_clients
          + pyRound ((base.total_clients : ℚ) * deltaRatio c.clients m duration_months)
        diff_clients := pyRound ((base.total_clients : ℚ) * deltaRatio c.clients m duration_months)
        satisfaction := clamp (base.satisfaction + deltaRatio c.sat m duration_months) 0 1
        churn_rate := severeChurn base.churn c.churn m duration_months pop
        digital_adoption := clamp (base.digital + deltaRatio c.digital m duration_months) 0 1 }
    regional := base.regions.map
      (regionalRec scenario region (deltaRatio c.clients m duration_months) c.region_bias
        (severeChurn base.churn c.churn m duration_months pop))
    segments := (segmentsList base).map (segmentRec segment (deltaRatio c.clients m duration_months)) }

/-- Embeds `simulate` (logic.py lines 260-339).  The dict lookups
`COEFF[scenario]` and `INT_MULT[intensity]` (line 263) raise `KeyError` in
Python when the key is absent; the embedding returns `none` there. -/
def simulate (base : Baseline) (pop : Pop)
    (scenario intensity segment region : String) (duration_months : ℤ) : Option SimResult :=
  match COEFF scenario, INT_MULT intensity with
  | some c, some m => some (simCore base pop c m scenario segment region duration_months)
  | _, _ => none

/-- One scenario request as handed to `compare` by the HTTP layer
(main.py lines 47-52 and 64-70): every field is present, the pydantic
model fills the defaults before `compare` runs. -/
structure Request where
  scenario : String
  intensity : String
  segment : String
  region : String
  duration_months : ℤ
deriving DecidableEq, Repr

/-- One entry of the list returned by `compare` (logic.py line 360). -/
structure CompRec where
  scenario : String
  adoption_change : ℚ
  revenue_change : ℚ
deriving DecidableEq, Repr

/-- The baseline revenue computed at logic.py lines 343-346: the sum over
the three segments of baseline count times unit revenue. -/
def baseRevenue (base : Baseline) : ℚ :=
  ((segmentsList base).map (fun sc => (sc.2 : ℚ) * rev_per sc.1)).sum

/-- One iteration of the loop of `compare` (logic.py lines 349-360):
simulate the request, then reduce to the adoption and revenue deltas.  A
failing `simulate` (unknown scenario) propagates. -/
def compareOne (base : Baseline) (pop : Pop) (base_revenue : ℚ) (p : Request) : Option CompRec :=
  (simulate base pop p.scenario p.intensity p.segment p.region p.duration_months).map fun res =>
    let adoption_change := res.kpis.digital_adoption - base.digital
    let revenue := base_revenue + (res.segments.map (fun s => s.revenue_impact_tnd)).sum
    let revenue_change := if base_revenue ≠ 0 then (revenue - base_revenue) / base_revenue else 0
    { scenario := p.scenario, adoption_change := adoption_change, revenue_change := revenue_change }

/-- Embeds `compare` (logic.py lines 341-361).  The Python loop raises out
of the whole call at the first unknown scenario, so the embedding fails the
whole batch with `none` in that case. -/
def compare (base : Baseline) (pop : Pop) : List Request → Option (List CompRec)
  | [] => some []
  | p :: rest =>
    match compareOne base pop (baseRevenue base) p, compare base pop rest with
    | some r, some rs => some (r :: rs)
    | _, _ => none

/-- Modelled from the spec (section 4.2): the churn model exactly as the
specification words it, to be compared with the severe-churn computation
embedded from the code. -/
def churnRateSpec (baselineChurn scenarioChurnEffect intensityMultiplier : ℚ)
    (durationMonths : ℤ) (avgCashUsage avgDigitalAdoption severity digitalShieldThreshold : ℚ) : ℚ :=
  let impulse := scenarioChurnEffect * intensityMultiplier * ((durationMonths : ℚ) / 6) * severity
  let behaviorAdjustment := 1 + (6/10) * (avgCashUsage - 1/2) - (6/10) * (avgDigitalAdoption - 1/2)
  let impulse2 := if digitalShieldThreshold ≤ avgDigitalAdoption ∧ 0 < impulse then impulse * (7/10) else impulse
  clamp (baselineChurn + impulse2 * behaviorAdjustment) 0 1

/-! ## Helper lemmas -/

theorem clamp01_nonneg (x : ℚ) : 0 ≤ clamp x 0 1 := le_max_left 0 _

theorem clamp01_le_one (x : ℚ) : clamp x 0 1 ≤ 1 :=
  max_le (by norm_num) (min_le_left 1 x)

theorem clamp_of_mem {x lo hi : ℚ} (h0 : lo ≤ x) (h1 : x ≤ hi) : clamp x lo hi = x := by
  unfold clamp
  rw [min_eq_right h1, max_eq_right h0]

theorem floor_le_pyRound (x : ℚ) : ⌊x⌋ ≤ pyRound x := by
  unfold pyRound
  split_ifs <;> omega

theorem pyRound_le_floor_add_one (x : ℚ) : pyRound x ≤ ⌊x⌋ + 1 := by
  unfold pyRound
  split_ifs <;> omega

theorem pyRound_zero : pyRound 0 = 0 := by
  norm_num [pyRound]

theorem pyRound_mono {x y : ℚ} (h : x ≤ y) : pyRound x ≤ pyRound y := by
  rcases lt_or_le ⌊x⌋ ⌊y⌋ with hf | hf
  · calc pyRound x ≤ ⌊x⌋ + 1 := pyRound_le_floor_add_one x
      _ ≤ ⌊y⌋ := by omega
      _ ≤ pyRound y := floor_le_pyRound y
  · have hfe : ⌊x⌋ = ⌊y⌋ := le_antisymm (Int.floor_le_floor h) hf
    have hfr : x - (⌊y⌋ : ℚ) ≤ y - (⌊y⌋ : ℚ) := by linarith
    unfold pyRound
    rw [hfe]
    split_ifs <;> first | omega | linarith

theorem pyRound_nonpos {x : ℚ} (h : x ≤ 0) : pyRound x ≤ 0 :=
  pyRound_zero ▸ pyRound_mono h

theorem simulate_eq (base : Baseline) (pop : Pop)
    (scenario intensity segment region : String) (d : ℤ) (c : Coeff) (m : ℚ)
    (hc : COEFF scenario = some c) (hm : INT_MULT intensity = some m) :
    simulate base pop scenario intensity segment region d
      = some (simCore base pop c m scenario segment region d) := by
  unfold simulate
  rw [hc, hm]

theorem severeChurn_eq_spec (bc cc m : ℚ) (d : ℤ) (pop : Pop) :
    severeChurn bc cc m d pop = churnRateSpec bc cc m d pop.avg_cash pop.avg_dig 2 (6/10) := rfl

theorem list_map_pair_eta (l : List (String × ℤ)) : l.map (fun p => (p.1, p.2)) = l := by
  simp

/-! ## Shared concrete snapshots for witnesses and counterexamples -/

/-- A small concrete Baseline Record used to instantiate the theorems. -/
def tinyBase : Baseline :=
  { total_clients := 100, satisfaction := 7/10, churn := 1/4, digital := 1/2,
    regions := [("Tunis", 100)], segPremium := 34, segSME := 33, segMass := 33 }

/-- Neutral population means. -/
def tinyPop : Pop := { avg_cash := 1/2, avg_dig := 1/2 }

/-- Population means with high digital adoption, activating the digital
shield. -/
def pop7 : Pop := { avg_cash := 1/2, avg_dig := 7/10 }

/-! ## C1 -/

/-- C1: inside `simulate`, the returned population churn rate equals
`clamp(baselineChurn + impulse*behaviorAdjustment, 0, 1)` with
`impulse = scenarioChurnEffect * intensityMultiplier * (durationMonths/6) * 2.0`,
`behaviorAdjustment = 1 + 0.6*(avgCashUsage-0.5) - 0.6*(avgDigitalAdoption-0.5)`,
and the impulse additionally multiplied by 0.7 exactly when
`avgDigitalAdoption >= 0.60` and the impulse is strictly positive. -/
theorem churn_model_refines_spec (base : Baseline) (pop : Pop)
    (scenario intensity segment region : String) (d : ℤ) (c : Coeff) (m : ℚ)
    (hc : COEFF scenario = some c) (hm : INT_MULT intensity = some m) :
    (simulate base pop scenario intensity segment region d).map (fun r => r.kpis.churn_rate)
      = some (churnRateSpec base.churn c.churn m d pop.avg_cash pop.avg_dig 2 (6/10)) := by
  rw [simulate_eq base pop scenario intensity segment region d c m hc hm]
  rfl

/-- Witness for C1 at a concrete request with the digital shield active. -/
theorem churn_model_refines_spec_witness :
    COEFF "Currency Devaluation" = some ⟨-(2/100), -(3/100), 5/100, 0, 0⟩ ∧
    INT_MULT "Moyenne" = some 1 ∧
    (simulate tinyBase pop7 "Currency Devaluation" "Moyenne" "Tous les segments" "Tunis" 6).map
        (fun r => r.kpis.churn_rate)
      = some (churnRateSpec tinyBase.churn (5/100) 1 6 pop7.avg_cash pop7.avg_dig 2 (6/10)) :=
  ⟨rfl, rfl,
    churn_model_refines_spec tinyBase pop7 "Currency Devaluation" "Moyenne" "Tous les segments"
      "Tunis" 6 ⟨-(2/100), -(3/100), 5/100, 0, 0⟩ 1 rfl rfl⟩

/-! ## C2 -/

/-- C2: for every valid request (scenario in the coefficient table,
intensity one of the three levels, duration in [1,24]), the ratio-typed
KPIs satisfaction, churn_rate and digital_adoption of the simulate result
all lie in [0,1]. -/
theorem ratio_kpis_unit_interval (base : Baseline) (pop : Pop)
    (scenario intensity segment region : String) (d : ℤ) (c : Coeff) (m : ℚ)
    (hc : COEFF scenario = some c) (hm : INT_MULT intensity = some m)
    (hd1 : 1 ≤ d) (hd2 : d ≤ 24) :
    ∀ res ∈ simulate base pop scenario intensity segment region d,
      (0 ≤ res.kpis.satisfaction ∧ res.kpis.satisfaction ≤ 1) ∧
      (0 ≤ res.kpis.churn_rate ∧ res.kpis.churn_rate ≤ 1) ∧
      (0 ≤ res.kpis.digital_adoption ∧ res.kpis.digital_adoption ≤ 1) := by
  intro res hres
  rw [Option.mem_def, simulate_eq base pop scenario intensity segment region d c m hc hm] at hres
  obtain rfl := (Option.some.inj hres).symm
  exact ⟨⟨clamp01_nonneg _, clamp01_le_one _⟩, ⟨clamp01_nonneg _, clamp01_le_one _⟩,
    clamp01_nonneg _, clamp01_le_one _⟩

/-- Witness for C2 at a concrete valid request. -/
theorem ratio_kpis_unit_interval_witness :
    COEFF "Energy Crisis" = some ⟨-(5/100), -(4/100), 6/100, -(1/100), 0⟩ ∧
    INT_MULT "Forte" = some (3/2) ∧ (1 : ℤ) ≤ 12 ∧ (12 : ℤ) ≤ 24 ∧
    (∀ res ∈ simulate tinyBase tinyPop "Energy Crisis" "Forte" "Tous les segments" "Tunis" 12,
      (0 ≤ res.kpis.satisfaction ∧ res.kpis.satisfaction ≤ 1) ∧
      (0 ≤ res.kpis.churn_rate ∧ res.kpis.churn_rate ≤ 1) ∧
      (0 ≤ res.kpis.digital_adoption ∧ res.kpis.digital_adoption ≤ 1)) :=
  ⟨rfl, rfl, by decide, by decide,
    ratio_kpis_unit_interval tinyBase tinyPop "Energy Crisis" "Forte" "Tous les segments"
      "Tunis" 12 ⟨-(5/100), -(4/100), 6/100, -(1/100), 0⟩ (3/2) rfl rfl
      (by decide) (by decide)⟩

/-! ## C3 -/

/-- C3: with the Baseline scenario, at every intensity and duration,
`simulate` returns `diff_clients = 0`, satisfaction and digital adoption
equal to the baseline values, and churn exactly equal to the baseline
churn (the churn model with zero impulse), given the snapshot invariant
that the baseline ratios lie in [0,1]. -/
theorem baseline_scenario_identity (base : Baseline) (pop : Pop)
    (intensity segment region : String) (d : ℤ) (m : ℚ)
    (hm : INT_MULT intensity = some m)
    (hs0 : 0 ≤ base.satisfaction) (hs1 : base.satisfaction ≤ 1)
    (hg0 : 0 ≤ base.digital) (hg1 : base.digital ≤ 1)
    (hch0 : 0 ≤ base.churn) (hch1 : base.churn ≤ 1) :
    (simulate base pop "Baseline" intensity segment region d).map
        (fun r => (r.kpis.diff_clients, r.kpis.satisfaction, r.kpis.digital_adoption, r.kpis.churn_rate))
      = some (0, base.satisfaction, base.digital, base.churn) := by
  rw [simulate_eq base pop "Baseline" intensity segment region d ⟨0, 0, 0, 0, 0⟩ m rfl hm]
  simp only [Option.map_some']
  refine congrArg some ?_
  simp only [Prod.mk.injEq]
  refine ⟨?_, ?_, ?_, ?_⟩
  · show pyRound ((base.total_clients : ℚ) * deltaRatio 0 m d) = 0
    simp [deltaRatio, pyRound_zero]
  · show clamp (base.satisfaction + deltaRatio 0 m d) 0 1 = base.satisfaction
    simp [deltaRatio, clamp_of_mem hs0 hs1]
  · show clamp (base.digital + deltaRatio 0 m d) 0 1 = base.digital
    simp [deltaRatio, clamp_of_mem hg0 hg1]
  · show severeChurn base.churn 0 m d pop = base.churn
    simp [severeChurn, clamp_of_mem hch0 hch1]

/-- Witness for C3 at a concrete intensity and duration. -/
theorem baseline_scenario_identity_witness :
    INT_MULT "Forte" = some (3/2) ∧
    ((0 : ℚ) ≤ tinyBase.satisfaction ∧ tinyBase.satisfaction ≤ 1) ∧
    ((0 : ℚ) ≤ tinyBase.digital ∧ tinyBase.digital ≤ 1) ∧
    ((0 : ℚ) ≤ tinyBase.churn ∧ tinyBase.churn ≤ 1) ∧
    (simulate tinyBase tinyPop "Baseline" "Forte" "Premium" "Tunis" 17).map
        (fun r => (r.kpis.diff_clients, r.kpis.satisfaction, r.kpis.digital_adoption, r.kpis.churn_rate))
      = some (0, tinyBase.satisfaction, tinyBase.digital, tinyBase.churn) :=
  ⟨rfl, ⟨by with_unfolding_all decide, by with_unfolding_all decide⟩,
    ⟨by with_unfolding_all decide, by with_unfolding_all decide⟩,
    ⟨by with_unfolding_all decide, by with_unfolding_all decide⟩,
    baseline_scenario_identity tinyBase tinyPop "Forte" "Premium" "Tunis" 17 (3/2) rfl
      (by with_unfolding_all decide) (by with_unfolding_all decide)
      (by with_unfolding_all decide) (by with_unfolding_all decide)
      (by with_unfolding_all decide) (by with_unfolding_all decide)⟩

/-! ## C4 -/

/-- Case analysis of the risk-label policy, separated out of the regional
loop. -/
theorem riskLabel_cases (d : ℤ) (lc : ℚ) :
    (d < 0 ∨ 35/100 < lc → riskLabel d lc = "High") ∧
    (¬(d < 0 ∨ 35/100 < lc) →
      (lc < 18/100 ∧ 0 ≤ d → riskLabel d lc = "Low") ∧
      (¬(lc < 18/100 ∧ 0 ≤ d) → riskLabel d lc = "Medium")) ∧
    (d < 0 → riskLabel d lc = "High") := by
  unfold riskLabel
  by_cases h1 : d < 0 ∨ 35/100 < lc
  · simp [h1]
  · by_cases h2 : lc < 18/100 ∧ 0 ≤ d
    · simp [h1, h2]
    · simp [h1, h2]
      exact le_of_not_lt fun h => h1 (Or.inl h)

/-- C4: for every regional record of a simulate result, the risk label is
High if the delta is negative or the local churn exceeds 0.35, else Low if
the local churn is below 0.18 and the delta is nonnegative, else Medium;
in particular a negative delta always forces High. -/
theorem risk_label_policy (base : Baseline) (pop : Pop)
    (scenario intensity segment region : String) (d : ℤ) (c : Coeff) (m : ℚ)
    (hc : COEFF scenario = some c) (hm : INT_MULT intensity = some m) :
    ∀ res ∈ simulate base pop scenario intensity segment region d,
      ∀ rec ∈ res.regional,
        (rec.delta_clients < 0 ∨ 35/100 < localChurnOf scenario region res.kpis.churn_rate rec.region
            → rec.risk = "High") ∧
        (¬(rec.delta_clients < 0 ∨ 35/100 < localChurnOf scenario region res.kpis.churn_rate rec.region) →
          (localChurnOf scenario region res.kpis.churn_rate rec.region < 18/100 ∧ 0 ≤ rec.delta_clients
              → rec.risk = "Low") ∧
          (¬(localChurnOf scenario region res.kpis.churn_rate rec.region < 18/100 ∧ 0 ≤ rec.delta_clients)
              → rec.risk = "Medium")) ∧
        (rec.delta_clients < 0 → rec.risk = "High") := by
  intro res hres rec hrec
  rw [Option.mem_def, simulate_eq base pop scenario intensity segment region d c m hc hm] at hres
  obtain rfl := (Option.some.inj hres).symm
  simp only [simCore] at hrec
  obtain ⟨rc, hrc, rfl⟩ := List.mem_map.1 hrec
  exact riskLabel_cases _ _

/-! ## C5 -/

/-- Counterexample to C5 as stated: the segment record built by the
segment loop carries no churn field at all (the output line for it is
commented out in the source), so the non-matching segment churn is not
reported. -/
theorem segment_churn_not_reported :
    "churn" ∉ segmentRecordFields ∧ "churn_rate" ∉ segmentRecordFields := by
  decide

/-- C5 (amended): when one specific segment is targeted, every
non-matching segment record has `delta_clients = 0` and zero revenue
impact; the per-segment churn value the loop computes for such a segment
equals the population churn rate, but it is not part of the returned
record. -/
theorem nontarget_segments_isolated (base : Baseline) (pop : Pop)
    (scenario intensity segment region : String) (d : ℤ) (c : Coeff) (m : ℚ)
    (hc : COEFF scenario = some c) (hm : INT_MULT intensity = some m)
    (hseg : segment ≠ "Tous les segments") :
    ∀ res ∈ simulate base pop scenario intensity segment region d,
      ∀ rec ∈ res.segments, rec.name ≠ segment →
        rec.delta_clients = 0 ∧ rec.revenue_impact_tnd = 0 ∧
        segChurnValue segment rec.name res.kpis.churn_rate = res.kpis.churn_rate := by
  intro res hres rec hrec hname
  rw [Option.mem_def, simulate_eq base pop scenario intensity segment region d c m hc hm] at hres
  obtain rfl := (Option.some.inj hres).symm
  simp only [simCore] at hrec hname ⊢
  obtain ⟨sc, hsc, rfl⟩ := List.mem_map.1 hrec
  simp only [segmentRec] at hname ⊢
  have hcond : segment ≠ "Tous les segments" ∧ sc.1 ≠ segment := ⟨hseg, hname⟩
  have hdelta : segDelta segment (deltaRatio c.clients m d) sc = 0 := by
    unfold segDelta
    rw [if_pos hcond]
  refine ⟨hdelta, ?_, ?_⟩
  · rw [hdelta]
    norm_num
  · unfold segChurnValue
    rw [if_pos hcond]

/-! ## C9 -/

/-- C9: a scenario name absent from the coefficient table makes `simulate`
fail (the lookup raises) rather than return a result, and in a batch
comparison the failure propagates and fails the whole batch instead of
being replaced by a default entry. -/
theorem unknown_scenario_fails_batch (base : Baseline) (pop : Pop)
    (p : Request) (payload : List Request)
    (hC : COEFF p.scenario = none) (hmem : p ∈ payload) :
    simulate base pop p.scenario p.intensity p.segment p.region p.duration_months = none ∧
    compare base pop payload = none := by
  have hsim : ∀ (i s r : String) (dm : ℤ), simulate base pop p.scenario i s r dm = none := by
    intro i s r dm
    unfold simulate
    rw [hC]
  refine ⟨hsim _ _ _ _, ?_⟩
  induction payload with
  | nil => cases hmem
  | cons q rest ih =>
    rcases List.mem_cons.1 hmem with hq | hmem2
    · have hcq : compareOne base pop (baseRevenue base) q = none := by
        unfold compareOne
        rw [← hq, hsim]
        rfl
      unfold compare
      rw [hcq]
    · have hrest := ih hmem2
      unfold compare
      rw [hrest]
      cases compareOne base pop (baseRevenue base) q <;> rfl

/-! ## C10 -/

/-- C10: the simulate result is internally consistent with its baseline:
the client KPI equals the baseline total plus the reported delta, and every
regional and segment record reports exactly its baseline count as
`current_clients`. -/
theorem frame_current_fields_preserved (base : Baseline) (pop : Pop)
    (scenario intensity segment region : String) (d : ℤ) (c : Coeff) (m : ℚ)
    (hc : COEFF scenario = some c) (hm : INT_MULT intensity = some m) :
    ∀ res ∈ simulate base pop scenario intensity segment region d,
      res.kpis.clients = base.total_clients + res.kpis.diff_clients ∧
      res.regional.map (fun r => (r.region, r.current_clients)) = base.regions ∧
      res.segments.map (fun s => (s.name, s.current_clients)) = segmentsList base := by
  intro res hres
  rw [Option.mem_def, simulate_eq base pop scenario intensity segment region d c m hc hm] at hres
  obtain rfl := (Option.some.inj hres).symm
  refine ⟨rfl, ?_, rfl⟩
  show (base.regions.map (regionalRec scenario region (deltaRatio c.clients m d) c.region_bias
      (severeChurn base.churn c.churn m d pop))).map (fun r => (r.region, r.current_clients))
    = base.regions
  rw [List.map_map]
  exact list_map_pair_eta base.regions

/-! ## C7 -/

/-- Counterexample to C7 as stated: with the Political Uncertainty scenario
(strictly negative client effect, -0.01) on a 100-client baseline at
duration 6, Faible and Moyenne intensities both yield 99 clients — not a
strict decrease — while the delta is a genuine -1 and client counts are
never clamped anywhere in `simulate`, so the equality does not occur at a
clamp boundary. -/
theorem intensity_strictness_fails :
    (COEFF "Political Uncertainty").map (fun c => c.clients) = some (-(1/100)) ∧
    (simulate tinyBase tinyPop "Political Uncertainty" "Faible" "Tous les segments" "Tunis" 6).map
        (fun r => r.kpis.clients) = some 99 ∧
    (simulate tinyBase tinyPop "Political Uncertainty" "Moyenne" "Tous les segments" "Tunis" 6).map
        (fun r => r.kpis.clients) = some 99 ∧
    (simulate tinyBase tinyPop "Political Uncertainty" "Moyenne" "Tous les segments" "Tunis" 6).map
        (fun r => r.kpis.diff_clients) = some (-1) :=
  ⟨by with_unfolding_all rfl, by with_unfolding_all rfl, by with_unfolding_all rfl,
    by with_unfolding_all rfl⟩

/-- C7 (amended): for a fixed scenario with strictly negative client
effect, nonnegative baseline total and positive duration, increasing the
intensity Faible, Moyenne, Forte weakly decreases the KPI client count;
the decrease need not be strict because the delta is rounded to an
integer (client counts are never clamped). -/
theorem intensity_weak_monotone (base : Baseline) (pop : Pop)
    (scenario segment region : String) (d : ℤ) (c : Coeff)
    (hc : COEFF scenario = some c) (hneg : c.clients < 0)
    (htot : 0 ≤ base.total_clients) (hd : 1 ≤ d) :
    ∀ rF ∈ simulate base pop scenario "Faible" segment region d,
    ∀ rM ∈ simulate base pop scenario "Moyenne" segment region d,
    ∀ rS ∈ simulate base pop scenario "Forte" segment region d,
      rS.kpis.clients ≤ rM.kpis.clients ∧ rM.kpis.clients ≤ rF.kpis.clients := by
  intro rF hF rM hM rS hS
  rw [Option.mem_def, simulate_eq base pop scenario "Faible" segment region d c (6/10) hc rfl] at hF
  rw [Option.mem_def, simulate_eq base pop scenario "Moyenne" segment region d c 1 hc rfl] at hM
  rw [Option.mem_def, simulate_eq base pop scenario "Forte" segment region d c (3/2) hc rfl] at hS
  obtain rfl := (Option.some.inj hF).symm
  obtain rfl := (Option.some.inj hM).symm
  obtain rfl := (Option.some.inj hS).symm
  have hT : (0:ℚ) ≤ (base.total_clients : ℚ) := by exact_mod_cast htot
  have hdq : (0:ℚ) < (d : ℚ) / 6 := by
    have h1 : (1:ℚ) ≤ (d:ℚ) := by exact_mod_cast hd
    linarith
  have key : ∀ m1 m2 : ℚ, m1 ≤ m2 →
      pyRound ((base.total_clients : ℚ) * deltaRatio c.clients m2 d)
        ≤ pyRound ((base.total_clients : ℚ) * deltaRatio c.clients m1 d) := by
    intro m1 m2 h12
    apply pyRound_mono
    have e1 : (base.total_clients : ℚ) * deltaRatio c.clients m2 d
        = ((base.total_clients : ℚ) * c.clients * ((d:ℚ)/6)) * m2 := by
      unfold deltaRatio
      ring
    have e2 : (base.total_clients : ℚ) * deltaRatio c.clients m1 d
        = ((base.total_clients : ℚ) * c.clients * ((d:ℚ)/6)) * m1 := by
      unfold deltaRatio
      ring
    rw [e1, e2]
    have ha : (base.total_clients : ℚ) * c.clients * ((d:ℚ)/6) ≤ 0 := by
      have h3 : (base.total_clients : ℚ) * c.clients ≤ 0 :=
        mul_nonpos_iff.2 (Or.inl ⟨hT, hneg.le⟩)
      exact mul_nonpos_iff.2 (Or.inr ⟨h3, hdq.le⟩)
    exact mul_le_mul_of_nonpos_left h12 ha
  constructor
  · have hk := key 1 (3/2) (by norm_num)
    simp only [simCore]
    omega
  · have hk := key (6/10) 1 (by norm_num)
    simp only [simCore]
    omega

/-! ## C8 -/

/-- A concrete baseline whose non-targeted region (Tunis) has a far larger
count than the targeted one (Tataouine). -/
def cex8Base : Baseline :=
  { total_clients := 1010, satisfaction := 7/10, churn := 1/4, digital := 1/2,
    regions := [("Tunis", 1000), ("Tataouine", 10)],
    segPremium := 337, segSME := 337, segMass := 336 }

/-- Counterexample to C8 as stated: under the branch-closure scenario at
Forte for 6 months targeting Tataouine, the targeted region moves by -1
client while non-targeted Tunis moves by -60, so the targeted delta
magnitude does not exceed every non-targeted one. -/
theorem target_delta_not_dominant :
    (simulate cex8Base tinyPop "Fermeture d\x27Agence" "Forte" "Tous les segments" "Tataouine" 6).map
        (fun r => r.regional.map (fun rec => (rec.region, rec.delta_clients)))
      = some [("Tunis", -60), ("Tataouine", -1)] ∧
    ¬ ((-60 : ℤ).natAbs < (-1 : ℤ).natAbs) :=
  ⟨by with_unfolding_all rfl, by decide⟩

/-- Strictly-positive lower bounds pass through `clamp` into [0,1] as long
as the bound is below 1. -/
theorem clamp01_gt {x t : ℚ} (ht1 : t < 1) (h : t < x) : t < clamp x 0 1 :=
  lt_of_lt_of_le (lt_min_iff.2 ⟨ht1, h⟩) (le_max_right 0 (min 1 x))

/-- C8 (amended): for the branch-closure scenario at Forte intensity and
duration 6 with nonnegative regional counts, the targeted region's delta
magnitude is at least that of every non-targeted region whose baseline
count does not exceed the targeted region's count (dominance over larger
regions fails, and rounding can produce ties), and the targeted region is
labeled High whenever the population churn times the 1.5 regional
multiplier exceeds 0.35. -/
theorem branch_closure_target_dominance (base : Baseline) (pop : Pop)
    (segment region : String)
    (hreg : ∀ p ∈ base.regions, (0:ℤ) ≤ p.2) :
    ∀ res ∈ simulate base pop "Fermeture d\x27Agence" "Forte" segment region 6,
      ∀ rt ∈ res.regional, rt.region = region →
        (∀ rr ∈ res.regional, rr.region ≠ region → rr.current_clients ≤ rt.current_clients →
          rr.delta_clients.natAbs ≤ rt.delta_clients.natAbs) ∧
        (35/100 < res.kpis.churn_rate * (3/2) → rt.risk = "High") := by
  intro res hres rt hrt htarget
  rw [Option.mem_def,
    simulate_eq base pop "Fermeture d\x27Agence" "Forte" segment region 6
      ⟨-(4/100), -(2/100), 3/100, 1/100, 1/2⟩ (3/2) rfl rfl] at hres
  obtain rfl := (Option.some.inj hres).symm
  simp only [simCore] at hrt ⊢
  obtain ⟨rct, hrct, rfl⟩ := List.mem_map.1 hrt
  simp only [regionalRec] at htarget ⊢
  have hratio : deltaRatio (-(4/100)) (3/2) 6 = -(3/50) := by
    unfold deltaRatio
    norm_num
  have hct0 : (0:ℤ) ≤ rct.2 := hreg rct hrct
  have hwt : regionWeight "Fermeture d\x27Agence" region (1/2) rct.1 = 3/2 := by
    unfold regionWeight
    rw [if_pos ⟨rfl, htarget⟩]
    norm_num
  constructor
  · intro rr hrr hne hle
    simp only [List.mem_map] at hrr
    obtain ⟨rcr, hrcr, rfl⟩ := hrr
    simp only [regionalRec] at hne hle ⊢
    have hcr0 : (0:ℤ) ≤ rcr.2 := hreg rcr hrcr
    have hwr : regionWeight "Fermeture d\x27Agence" region (1/2) rcr.1 = 1 := by
      unfold regionWeight
      rw [if_neg]
      · norm_num
      · rintro ⟨-, hcontra⟩
        exact hne hcontra
    unfold regionDelta
    rw [hratio, hwt, hwr]
    have hcrq : (0:ℚ) ≤ (rcr.2 : ℚ) := by exact_mod_cast hcr0
    have hleq : (rcr.2 : ℚ) ≤ (rct.2 : ℚ) := by exact_mod_cast hle
    have hmon : (rct.2 : ℚ) * -(3/50) * (3/2) ≤ (rcr.2 : ℚ) * -(3/50) * 1 := by
      nlinarith
    have h1 := pyRound_mono hmon
    have h2 : pyRound ((rcr.2 : ℚ) * -(3/50) * 1) ≤ 0 := by
      apply pyRound_nonpos
      nlinarith
    omega
  · intro h35
    have hlc : 35/100 < localChurnOf "Fermeture d\x27Agence" region
        (severeChurn base.churn (3/100) (3/2) 6 pop) rct.1 := by
      unfold localChurnOf
      rw [if_pos ⟨Or.inl rfl, htarget⟩]
      exact clamp01_gt (by norm_num) h35
    unfold riskLabel
    rw [if_pos (Or.inr hlc)]

/-! ## C6 -/

/-- The comparison record the specification predicts for one simulated
request. -/
def compRecSpec (base : Baseline) (p : Request) (res : SimResult) : CompRec :=
  { scenario := p.scenario,
    adoption_change := res.kpis.digital_adoption - base.digital,
    revenue_change := if baseRevenue base = 0 then 0
      else (res.segments.map (fun s => s.revenue_impact_tnd)).sum / baseRevenue base }

/-- Rewriting one loop iteration of `compare` to the predicted record. -/
theorem compareOne_eq_spec (base : Baseline) (pop : Pop) (p : Request) (r : CompRec)
    (h : compareOne base pop (baseRevenue base) p = some r) :
    ∃ res, simulate base pop p.scenario p.intensity p.segment p.region p.duration_months = some res ∧
      r = compRecSpec base p res := by
  unfold compareOne at h
  rw [Option.map_eq_some'] at h
  obtain ⟨res, hres, hr⟩ := h
  refine ⟨res, hres, ?_⟩
  rw [← hr]
  unfold compRecSpec
  simp only [CompRec.mk.injEq, true_and]
  rcases eq_or_ne (baseRevenue base) 0 with h0 | h0
  · simp [h0]
  · rw [if_pos h0, if_neg h0]
    congr 1
    ring

/-- C6: `compare` returns exactly one record per request, in input order,
with `adoption_change` the difference between the simulated digital
adoption and the baseline one, and `revenue_change` the summed segment
revenue impacts divided by the baseline revenue, or 0 when the baseline
revenue is zero. -/
theorem compare_pointwise_spec (base : Baseline) (pop : Pop) (payload : List Request) :
    ∀ out ∈ compare base pop payload,
      out.length = payload.length ∧
      ∀ (i : ℕ) (p : Request), payload[i]? = some p →
        ∃ res, simulate base pop p.scenario p.intensity p.segment p.region p.duration_months = some res ∧
          out[i]? = some (compRecSpec base p res) := by
  induction payload with
  | nil =>
    intro out hout
    rw [Option.mem_def] at hout
    obtain rfl := (Option.some.inj hout).symm
    refine ⟨rfl, ?_⟩
    intro i p hp
    simp at hp
  | cons q rest ih =>
    intro out hout
    rw [Option.mem_def] at hout
    unfold compare at hout
    cases hcq : compareOne base pop (baseRevenue base) q with
    | none => rw [hcq] at hout; cases hout
    | some r =>
      cases hcr : compare base pop rest with
      | none =>
        rw [hcq, hcr] at hout
        cases hout
      | some rs =>
        rw [hcq, hcr] at hout
        obtain rfl := (Option.some.inj hout).symm
        obtain ⟨hlen, hidx⟩ := ih rs (by rw [Option.mem_def, hcr])
        refine ⟨by simp [hlen], ?_⟩
        intro i p hp
        match i with
        | 0 =>
          simp only [List.getElem?_cons_zero, Option.some.injEq] at hp
          obtain rfl := hp.symm
          obtain ⟨res, hres, hr⟩ := compareOne_eq_spec base pop p r hcq
          exact ⟨res, hres, by simp [hr]⟩
        | Nat.succ n =>
          simp only [List.getElem?_cons_succ] at hp
          obtain ⟨res, hres, hout'⟩ := hidx n p hp
          exact ⟨res, hres, by simpa using hout'⟩

/-! ## Witnesses for C4-C10 -/

/-- Witness for C4 at a concrete request (regional instability targeting
Tunis). -/
theorem risk_label_policy_witness :
    COEFF "Regional Instability" = some ⟨-(3/100), -(2/100), 3/100, -(5/1000), 0⟩ ∧
    INT_MULT "Moyenne" = some 1 ∧
    (∀ res ∈ simulate tinyBase tinyPop "Regional Instability" "Moyenne" "Tous les segments" "Tunis" 6,
      ∀ rec ∈ res.regional,
        (rec.delta_clients < 0 ∨
            35/100 < localChurnOf "Regional Instability" "Tunis" res.kpis.churn_rate rec.region
            → rec.risk = "High") ∧
        (¬(rec.delta_clients < 0 ∨
            35/100 < localChurnOf "Regional Instability" "Tunis" res.kpis.churn_rate rec.region) →
          (localChurnOf "Regional Instability" "Tunis" res.kpis.churn_rate rec.region < 18/100
              ∧ 0 ≤ rec.delta_clients → rec.risk = "Low") ∧
          (¬(localChurnOf "Regional Instability" "Tunis" res.kpis.churn_rate rec.region < 18/100
              ∧ 0 ≤ rec.delta_clients) → rec.risk = "Medium")) ∧
        (rec.delta_clients < 0 → rec.risk = "High")) :=
  ⟨rfl, rfl,
    risk_label_policy tinyBase tinyPop "Regional Instability" "Moyenne" "Tous les segments"
      "Tunis" 6 ⟨-(3/100), -(2/100), 3/100, -(5/1000), 0⟩ 1 rfl rfl⟩

/-- Witness for the amended C5 at a concrete request targeting Premium. -/
theorem nontarget_segments_isolated_witness :
    COEFF "Currency Devaluation" = some ⟨-(2/100), -(3/100), 5/100, 0, 0⟩ ∧
    INT_MULT "Moyenne" = some 1 ∧
    ("Premium" : String) ≠ "Tous les segments" ∧
    (∀ res ∈ simulate tinyBase tinyPop "Currency Devaluation" "Moyenne" "Premium" "Tunis" 6,
      ∀ rec ∈ res.segments, rec.name ≠ "Premium" →
        rec.delta_clients = 0 ∧ rec.revenue_impact_tnd = 0 ∧
        segChurnValue "Premium" rec.name res.kpis.churn_rate = res.kpis.churn_rate) :=
  ⟨rfl, rfl, by decide,
    nontarget_segments_isolated tinyBase tinyPop "Currency Devaluation" "Moyenne" "Premium"
      "Tunis" 6 ⟨-(2/100), -(3/100), 5/100, 0, 0⟩ 1 rfl rfl (by decide)⟩

/-- A concrete request for the comparison witnesses. -/
def wReq6 : Request :=
  { scenario := "Export Boom", intensity := "Moyenne", segment := "Tous les segments",
    region := "Tunis", duration_months := 6 }

/-- Witness for C6 at a concrete one-request batch, with the output list
discharged concretely. -/
theorem compare_pointwise_spec_witness :
    ([({ scenario := "Export Boom", adoption_change := 0, revenue_change := 397/13361 } : CompRec)]
        ∈ compare tinyBase tinyPop [wReq6]) ∧
    ([({ scenario := "Export Boom", adoption_change := 0, revenue_change := 397/13361 } : CompRec)].length
        = [wReq6].length ∧
      ∀ (i : ℕ) (p : Request), [wReq6][i]? = some p →
        ∃ res, simulate tinyBase tinyPop p.scenario p.intensity p.segment p.region p.duration_months
            = some res ∧
          [({ scenario := "Export Boom", adoption_change := 0, revenue_change := 397/13361 } : CompRec)][i]?
            = some (compRecSpec tinyBase p res)) :=
  ⟨by with_unfolding_all rfl,
    compare_pointwise_spec tinyBase tinyPop [wReq6]
      [{ scenario := "Export Boom", adoption_change := 0, revenue_change := 397/13361 }]
      (by with_unfolding_all rfl)⟩

/-- Witness for the amended C7 at a concrete contraction scenario. -/
theorem intensity_weak_monotone_witness :
    COEFF "Energy Crisis" = some ⟨-(5/100), -(4/100), 6/100, -(1/100), 0⟩ ∧
    ((⟨-(5/100), -(4/100), 6/100, -(1/100), 0⟩ : Coeff).clients < 0) ∧
    ((0:ℤ) ≤ tinyBase.total_clients) ∧ ((1:ℤ) ≤ 6) ∧
    (∀ rF ∈ simulate tinyBase tinyPop "Energy Crisis" "Faible" "Tous les segments" "Tunis" 6,
     ∀ rM ∈ simulate tinyBase tinyPop "Energy Crisis" "Moyenne" "Tous les segments" "Tunis" 6,
     ∀ rS ∈ simulate tinyBase tinyPop "Energy Crisis" "Forte" "Tous les segments" "Tunis" 6,
      rS.kpis.clients ≤ rM.kpis.clients ∧ rM.kpis.clients ≤ rF.kpis.clients) :=
  ⟨rfl, by with_unfolding_all decide, by with_unfolding_all decide, by decide,
    intensity_weak_monotone tinyBase tinyPop "Energy Crisis" "Tous les segments" "Tunis" 6
      ⟨-(5/100), -(4/100), 6/100, -(1/100), 0⟩ rfl (by with_unfolding_all decide)
      (by with_unfolding_all decide) (by decide)⟩

/-- Witness for the amended C8 at a concrete branch-closure request. -/
theorem branch_closure_target_dominance_witness :
    (∀ p ∈ tinyBase.regions, (0:ℤ) ≤ p.2) ∧
    (∀ res ∈ simulate tinyBase tinyPop "Fermeture d\x27Agence" "Forte" "Tous les segments" "Tunis" 6,
      ∀ rt ∈ res.regional, rt.region = "Tunis" →
        (∀ rr ∈ res.regional, rr.region ≠ "Tunis" → rr.current_clients ≤ rt.current_clients →
          rr.delta_clients.natAbs ≤ rt.delta_clients.natAbs) ∧
        (35/100 < res.kpis.churn_rate * (3/2) → rt.risk = "High")) :=
  ⟨by with_unfolding_all decide,
    branch_closure_target_dominance tinyBase tinyPop "Tous les segments" "Tunis"
      (by with_unfolding_all decide)⟩

/-- A request whose scenario name is not in the coefficient table. -/
def wReq9 : Request :=
  { scenario := "Guerre Mondiale", intensity := "Moyenne", segment := "Tous les segments",
    region := "Tunis", duration_months := 6 }

/-- Witness for C9 at a concrete unknown scenario name. -/
theorem unknown_scenario_fails_batch_witness :
    COEFF wReq9.scenario = none ∧ wReq9 ∈ [wReq9] ∧
    (simulate tinyBase tinyPop wReq9.scenario wReq9.intensity wReq9.segment wReq9.region
        wReq9.duration_months = none ∧
     compare tinyBase tinyPop [wReq9] = none) :=
  ⟨rfl, List.mem_singleton.mpr rfl,
    unknown_scenario_fails_batch tinyBase tinyPop wReq9 [wReq9] rfl (List.mem_singleton.mpr rfl)⟩

/-- Witness for C10 at a concrete request. -/
theorem frame_current_fields_preserved_witness :
    COEFF "Digital Transformation" = some ⟨1/100, 1/100, -(2/100), 5/100, 0⟩ ∧
    INT_MULT "Faible" = some (6/10) ∧
    (∀ res ∈ simulate tinyBase tinyPop "Digital Transformation" "Faible" "Tous les segments" "Tunis" 9,
      res.kpis.clients = tinyBase.total_clients + res.kpis.diff_clients ∧
      res.regional.map (fun r => (r.region, r.current_clients)) = tinyBase.regions ∧
      res.segments.map (fun s => (s.name, s.current_clients)) = segmentsList tinyBase) :=
  ⟨rfl, rfl,
    frame_current_fields_preserved tinyBase tinyPop "Digital Transformation" "Faible"
      "Tous les segments" "Tunis" 9 ⟨1/100, 1/100, -(2/100), 5/100, 0⟩ (6/10) rfl rfl⟩

end BankingSim
